import Mathlib

/-!
Verification of the Atlantis drift-detection engine
(`revdotcom/gha-atlantis-drift-detection`).

The Go engine (`drifter` package) is shallowly embedded: the mutable
`Drifter` receiver becomes explicit state passing over `DrifterState`, the
external collaborators (plan-query backend, terraform CLI, notification
sink) become deterministic Lean functions bundled in `Collaborators`, and
every observable side effect (cache delete/store, plan query, counter
increment, sink invocation) is recorded in an ordered `trace`.

Scope notes:
* Repository checkout, config parsing, and the auto-generated config
  feature are outside the embedded fragment; `Drift` is embedded from the
  point where the directory-to-workspaces mapping is known
  (`src/unnamed/part_000`, lines 81-92).
* Cache I/O is modelled as an in-memory map whose get/delete/store
  operations succeed; the cache-unreachable error branches of the source
  are not exercised by any property below.
* `drainAndExecute` is embedded in its `ParallelRuns <= 1` branch (the
  sequential loop, lines 109-116); the channel-based worker pool of the
  `ParallelRuns > 1` branch is real concurrency and is not embedded.
* The `DriftedWorkspaceCount` field is an `int32` updated with
  `atomic.AddInt32`; it is modelled as `Int` (wraparound at 2^31 is
  unreachable for the workspace counts considered here).
-/

namespace DriftDetection

/-- Result of a successful plan-summary query
(`atlantis.PlanResult` as used by `Drifter.FindDriftedWorkspaces`). -/
structure PlanResult where
  hasChanges : Bool
  isLocked : Bool
  planResultSummary : String
deriving DecidableEq

/-- Outcome of `AtlantisClient.PlanSummary`: success, an error whose
`Temporary()` method reports true, or any other error. -/
inductive PlanOutcome where
  | ok (pr : PlanResult)
  | temporary (msg : String)
  | failure (msg : String)
deriving DecidableEq

/-- `processedcache.DriftCheckValue`: the drift-check cache record. -/
structure DriftCheckValue where
  when : Int
  error : String
  drift : Bool
deriving DecidableEq

/-- `processedcache.WorkspacesCheckedValue`: the reconciliation cache
record. -/
structure WorkspacesCheckedValue where
  workspaces : List String
  when : Int
deriving DecidableEq

/-- Observable effects of the engine, in program order. Sink invocations
are recorded with the arguments actually passed at the call site; in
particular `workspaceDriftSummary` carries the single `int32` argument
passed at `src/unnamed/part_000` line 89. -/
inductive Action where
  | deleteDriftCheckResult (dir workspace : String)
  | planSummaryQuery (dir workspace : String)
  | storeDriftCheckResult (dir workspace : String) (v : DriftCheckValue)
  | addDriftedWorkspaceCount
  | planDrift (dir workspace cliffnote : String)
  | deleteRemoteWorkspaces (dir : String)
  | terraformInit (dir : String)
  | listWorkspaces (dir : String)
  | extraWorkspaceInRemote (dir workspace : String)
  | storeRemoteWorkspaces (dir : String) (v : WorkspacesCheckedValue)
  | workspaceDriftSummary (drifted : Int)
deriving DecidableEq

/-- The mutable state threaded through a run: the two cache tables
(`ProcessedCache`), the atomic drift counter, and the effect trace. -/
structure DrifterState where
  driftCache : List ((String × String) × DriftCheckValue)
  workspacesCache : List (String × WorkspacesCheckedValue)
  driftedWorkspaceCount : Int
  trace : List Action
deriving DecidableEq

/-- Deterministic behaviours of the external collaborators; a sink method
returning `some e` models a non-nil Go error. -/
structure Collaborators where
  planSummary : String → String → PlanOutcome
  terraformInit : String → Option String
  listWorkspaces : String → Except String (List String)
  notifyPlanDrift : String → String → String → Option String
  notifyExtraWorkspaceInRemote : String → String → Option String
  notifyWorkspaceDriftSummary : Int → Option String

/-- Run configuration of the `Drifter` plus the current time (`time.Now`
and `time.Since` are modelled against a fixed `now`). -/
structure Env where
  now : Int
  cacheValidDuration : Int
  directoryAllowlist : List String
  skipWorkspaceCheck : Bool
  collab : Collaborators

/-- `ResultCache.GetDriftCheckResult` on the in-memory table. -/
def getDriftCheckResult (c : List ((String × String) × DriftCheckValue))
    (dir workspace : String) : Option DriftCheckValue :=
  match c.find? (fun p => p.1.1 == dir && p.1.2 == workspace) with
  | some p => some p.2
  | none => none

/-- `ResultCache.DeleteDriftCheckResult` on the in-memory table. -/
def deleteDriftCheckResultOp (c : List ((String × String) × DriftCheckValue))
    (dir workspace : String) : List ((String × String) × DriftCheckValue) :=
  c.filter (fun p => !(p.1.1 == dir && p.1.2 == workspace))

/-- `ResultCache.StoreDriftCheckResult` on the in-memory table. -/
def storeDriftCheckResultOp (c : List ((String × String) × DriftCheckValue))
    (dir workspace : String) (v : DriftCheckValue) :
    List ((String × String) × DriftCheckValue) :=
  ((dir, workspace), v) :: deleteDriftCheckResultOp c dir workspace

/-- `ResultCache.GetRemoteWorkspaces` on the in-memory table. -/
def getRemoteWorkspaces (c : List (String × WorkspacesCheckedValue))
    (dir : String) : Option WorkspacesCheckedValue :=
  match c.find? (fun p => p.1 == dir) with
  | some p => some p.2
  | none => none

/-- `ResultCache.DeleteRemoteWorkspaces` on the in-memory table. -/
def deleteRemoteWorkspacesOp (c : List (String × WorkspacesCheckedValue))
    (dir : String) : List (String × WorkspacesCheckedValue) :=
  c.filter (fun p => !(p.1 == dir))

/-- `ResultCache.StoreRemoteWorkspaces` on the in-memory table. -/
def storeRemoteWorkspacesOp (c : List (String × WorkspacesCheckedValue))
    (dir : String) (v : WorkspacesCheckedValue) :
    List (String × WorkspacesCheckedValue) :=
  (dir, v) :: deleteRemoteWorkspacesOp c dir

/-- Occurrence of `pat` as a contiguous run inside a character list. -/
def charsContain (pat : List Char) : List Char → Bool
  | [] => pat.isPrefixOf []
  | c :: cs => pat.isPrefixOf (c :: cs) || charsContain pat cs

/-- `strings.Contains hay pat`. -/
def strContains (hay pat : String) : Bool :=
  charsContain pat.toList hay.toList

/-- `Drifter.shouldSkipDirectory` (lines 94-104): an empty allowlist skips
nothing; otherwise a directory is processed iff some allowlist entry is a
substring of it. -/
def shouldSkipDirectory (allowlist : List String) (dir : String) : Bool :=
  if allowlist.isEmpty then false
  else !(allowlist.any (fun pat => strContains dir pat))

/-- `contains` (lines 285-292). -/
def contains : List String → String → Bool
  | [], _ => false
  | workspace :: rest, w => if workspace == w then true else contains rest w

/-- `atlantis.DirectoriesWithWorkspaces` (a Go map from directory to its
declared workspace list), represented as an association list with distinct
keys. -/
abbrev DirectoriesWithWorkspaces := List (String × List String)

/-- Go map indexing `ws[dir]` (zero value `[]` when absent). -/
def wsLookup (ws : DirectoriesWithWorkspaces) (dir : String) : List String :=
  match ws.find? (fun p => p.1 == dir) with
  | some p => p.2
  | none => []

/-- Lexicographic order on character lists. -/
def charListLe : List Char → List Char → Bool
  | [], _ => true
  | _ :: _, [] => false
  | a :: as, b :: bs => if a < b then true else if b < a then false else charListLe as bs

/-- Lexicographic order on strings. -/
def strLe (a b : String) : Bool :=
  charListLe a.toList b.toList

/-- Lexicographic insertion into a sorted list of directory names. -/
def insortDir (dir : String) : List String → List String
  | [] => [dir]
  | x :: xs => if strLe dir x then dir :: x :: xs else x :: insortDir dir xs

/-- Modelled from the spec: `DirectoriesWithWorkspaces.SortedKeys`, whose
source (package `internal/atlantis`) is not in the provided tree; per
spec section 5, directory names are sorted lexicographically before the
work list is built. -/
def sortedKeys (ws : DirectoriesWithWorkspaces) : List String :=
  (ws.map Prod.fst).foldr insortDir []

/-- `errFunc` (line 106), with the `Drifter` receiver made explicit
state. -/
abbrev ErrFunc := DrifterState → DrifterState × Option String

/-- Append one observable effect to the trace. -/
def logAct (s : DrifterState) (a : Action) : DrifterState :=
  { s with trace := s.trace ++ [a] }

/-- `Drifter.drainAndExecute`, `ParallelRuns <= 1` branch (lines 109-116):
run the work functions in list order, returning at the first non-nil
error. -/
def drainAndExecute : List ErrFunc → DrifterState → DrifterState × Option String
  | [], s => (s, none)
  | r :: rs, s =>
    match r s with
    | (s', some e) => (s', some e)
    | (s', none) => drainAndExecute rs s'

/-- Lines 179-211 of `Drifter.FindDriftedWorkspaces`: query the plan
backend for one (directory, workspace) pair, then classify, persist, and
notify. `(s, none)` models `continue`; `(s, some e)` models `return err`. -/
def planDriftStep (env : Env) (dir workspace : String) (s : DrifterState) :
    DrifterState × Option String :=
  let s1 := logAct s (.planSummaryQuery dir workspace)
  match env.collab.planSummary dir workspace with
  | .temporary _ => (s1, none)
  | .failure e =>
    (s1, some ("failed to get plan summary for (" ++ dir ++ "#" ++ workspace ++ "): " ++ e))
  | .ok pr =>
    let v : DriftCheckValue := { when := env.now, error := "", drift := pr.hasChanges }
    let s2 : DrifterState :=
      { s1 with driftCache := storeDriftCheckResultOp s1.driftCache dir workspace v,
                trace := s1.trace ++ [.storeDriftCheckResult dir workspace v] }
    if pr.isLocked then (s2, none)
    else if pr.hasChanges then
      let s3 : DrifterState :=
        { s2 with driftedWorkspaceCount := s2.driftedWorkspaceCount + 1,
                  trace := s2.trace ++ [.addDriftedWorkspaceCount] }
      let s4 := logAct s3 (.planDrift dir workspace pr.planResultSummary)
      match env.collab.notifyPlanDrift dir workspace pr.planResultSummary with
      | some e => (s4, some ("failed to notify of plan drift in " ++ dir ++ ": " ++ e))
      | none => (s4, none)
    else (s2, none)

/-- Lines 160-211: one iteration of the workspace loop, including the
TTL-gated cache lookup ahead of the plan query. -/
def checkWorkspace (env : Env) (dir workspace : String) (s : DrifterState) :
    DrifterState × Option String :=
  match getDriftCheckResult s.driftCache dir workspace with
  | some v =>
    if env.now - v.when < env.cacheValidDuration then (s, none)
    else
      let s1 : DrifterState :=
        { s with driftCache := deleteDriftCheckResultOp s.driftCache dir workspace,
                 trace := s.trace ++ [.deleteDriftCheckResult dir workspace] }
      planDriftStep env dir workspace s1
  | none => planDriftStep env dir workspace s

/-- Lines 159-212: the workspace loop of one directory's work function;
a non-nil error from an iteration aborts the directory's function. -/
def checkWorkspaces (env : Env) (dir : String) :
    List String → DrifterState → DrifterState × Option String
  | [], s => (s, none)
  | w :: rest, s =>
    match checkWorkspace env dir w s with
    | (s', some e) => (s', some e)
    | (s', none) => checkWorkspaces env dir rest s'

/-- `runningFunc` (lines 151-215): the per-directory drift-check work
function. -/
def driftDirFunc (env : Env) (ws : DirectoriesWithWorkspaces) (dir : String) : ErrFunc :=
  fun s =>
    if shouldSkipDirectory env.directoryAllowlist dir then (s, none)
    else checkWorkspaces env dir (wsLookup ws dir) s

/-- `Drifter.FindDriftedWorkspaces` (lines 150-221). -/
def FindDriftedWorkspaces (env : Env) (ws : DirectoriesWithWorkspaces)
    (s : DrifterState) : DrifterState × Option String :=
  drainAndExecute ((sortedKeys ws).map (fun dir => driftDirFunc env ws dir)) s

/-- Lines 262-268 of `Drifter.FindExtraWorkspaces`: walk the remote
workspace listing in order, notifying once per workspace that is not
expected; a sink failure aborts the directory's function. -/
def notifyExtraLoop (env : Env) (dir : String) (expected : List String) :
    List String → DrifterState → DrifterState × Option String
  | [], s => (s, none)
  | w :: rest, s =>
    if contains expected w then notifyExtraLoop env dir expected rest s
    else
      let s1 := logAct s (.extraWorkspaceInRemote dir w)
      match env.collab.notifyExtraWorkspaceInRemote dir w with
      | some e =>
        (s1, some ("failed to notify of extra workspace " ++ w ++ " in " ++ dir ++ ": " ++ e))
      | none => notifyExtraLoop env dir expected rest s1

/-- Lines 250-275: terraform init, remote listing, the diff-and-notify
loop, then the cache store (reached only when everything before it
succeeded). -/
def extraDirBody (env : Env) (ws : DirectoriesWithWorkspaces) (dir : String)
    (s : DrifterState) : DrifterState × Option String :=
  let workspaces := wsLookup ws dir
  let s1 := logAct s (.terraformInit dir)
  match env.collab.terraformInit dir with
  | some e => (s1, some ("failed to init workspace " ++ dir ++ ": " ++ e))
  | none =>
    let expectedWorkspaces := workspaces ++ ["default"]
    let s2 := logAct s1 (.listWorkspaces dir)
    match env.collab.listWorkspaces dir with
    | .error e => (s2, some ("failed to list workspaces in " ++ dir ++ ": " ++ e))
    | .ok remoteWorkspaces =>
      match notifyExtraLoop env dir expectedWorkspaces remoteWorkspaces s2 with
      | (s3, some e) => (s3, some e)
      | (s3, none) =>
        let v : WorkspacesCheckedValue := { workspaces := remoteWorkspaces, when := env.now }
        let s4 : DrifterState :=
          { s3 with workspacesCache := storeRemoteWorkspacesOp s3.workspacesCache dir v,
                    trace := s3.trace ++ [.storeRemoteWorkspaces dir v] }
        (s4, none)

/-- `runFunc` (lines 227-277): the per-directory reconciliation work
function, including its TTL-gated cache lookup. -/
def extraDirFunc (env : Env) (ws : DirectoriesWithWorkspaces) (dir : String) : ErrFunc :=
  fun s =>
    if shouldSkipDirectory env.directoryAllowlist dir then (s, none)
    else
      match getRemoteWorkspaces s.workspacesCache dir with
      | some v =>
        if env.now - v.when < env.cacheValidDuration then (s, none)
        else
          let s1 : DrifterState :=
            { s with workspacesCache := deleteRemoteWorkspacesOp s.workspacesCache dir,
                     trace := s.trace ++ [.deleteRemoteWorkspaces dir] }
          extraDirBody env ws dir s1
      | none => extraDirBody env ws dir s

/-- `Drifter.FindExtraWorkspaces` (lines 223-283). -/
def FindExtraWorkspaces (env : Env) (ws : DirectoriesWithWorkspaces)
    (s : DrifterState) : DrifterState × Option String :=
  if env.skipWorkspaceCheck then (s, none)
  else drainAndExecute ((sortedKeys ws).map (fun dir => extraDirFunc env ws dir)) s

/-- `Drifter.Drift` (lines 46-92) from the point where the parsed
directory-to-workspaces mapping is in hand: the drift pass, the
reconciliation pass, then the summary sink invocation at line 89, which
passes only `d.DriftedWorkspaceCount` and discards the returned error. -/
def Drift (env : Env) (ws : DirectoriesWithWorkspaces) (s : DrifterState) :
    DrifterState × Option String :=
  match FindDriftedWorkspaces env ws s with
  | (s1, some e) => (s1, some ("failed to find drifted workspaces: " ++ e))
  | (s1, none) =>
    match FindExtraWorkspaces env ws s1 with
    | (s2, some e) => (s2, some ("failed to find extra workspaces: " ++ e))
    | (s2, none) =>
      let s3 := logAct s2 (.workspaceDriftSummary s2.driftedWorkspaceCount)
      let _ := env.collab.notifyWorkspaceDriftSummary s2.driftedWorkspaceCount
      (s3, none)

/-- Collaborator stubs for the end-to-end scenario of spec section 8: the
plan query reports drift for `infra/db` and a clean plan for
`infra/network`; the remote listing matches the declared workspaces; all
sink deliveries succeed. -/
def twoDirCollab : Collaborators where
  planSummary := fun dir _ =>
    if dir == "infra/db" then
      .ok { hasChanges := true, isLocked := false, planResultSummary := "1 to change" }
    else
      .ok { hasChanges := false, isLocked := false, planResultSummary := "" }
  terraformInit := fun _ => none
  listWorkspaces := fun _ => .ok ["prod", "default"]
  notifyPlanDrift := fun _ _ _ => none
  notifyExtraWorkspaceInRemote := fun _ _ => none
  notifyWorkspaceDriftSummary := fun _ => none

/-- Environment for the two-directory run: empty allowlist, reconciliation
enabled, empty caches. -/
def twoDirEnv : Env where
  now := 1000
  cacheValidDuration := 600
  directoryAllowlist := []
  skipWorkspaceCheck := false
  collab := twoDirCollab

/-- The two directories of the spec section 8 run, one workspace each. -/
def twoDirWorkItems : DirectoriesWithWorkspaces :=
  [("infra/network", ["prod"]), ("infra/db", ["prod"])]

/-- A run starts with empty caches, a zero counter, and an empty trace. -/
def initialState : DrifterState where
  driftCache := []
  workspacesCache := []
  driftedWorkspaceCount := 0
  trace := []

/-- Recognizer for summary-sink invocations in a trace. -/
def isSummaryAction : Action → Bool
  | .workspaceDriftSummary _ => true
  | _ => false

/-- Recognizer for plan-query invocations of one (directory, workspace)
pair. -/
def isPlanQueryFor (dir w : String) : Action → Bool
  | .planSummaryQuery d w2 => d == dir && w2 == w
  | _ => false

/-- Recognizer for drift-cache stores of one (directory, workspace)
pair. -/
def isStoreFor (dir w : String) : Action → Bool
  | .storeDriftCheckResult d w2 _ => d == dir && w2 == w
  | _ => false

/-- Recognizer for drift-notification sink invocations. -/
def isPlanDriftNotify : Action → Bool
  | .planDrift _ _ _ => true
  | _ => false

/-- Recognizer for reconciliation-cache stores of one directory. -/
def isWsStoreFor (dir : String) : Action → Bool
  | .storeRemoteWorkspaces d _ => d == dir
  | _ => false

/-- The drift-cache record for a (directory, workspace) pair is absent or
stale; exactly the condition under which the workspace loop reaches the
plan query. -/
def missOrStale (env : Env) (dir w : String) (s : DrifterState) : Prop :=
  getDriftCheckResult s.driftCache dir w = none ∨
  ∃ v, getDriftCheckResult s.driftCache dir w = some v ∧
    env.cacheValidDuration ≤ env.now - v.when

/-- State reached after running a list of work functions in order,
ignoring their error results. -/
def execSeq : List ErrFunc → DrifterState → DrifterState
  | [], s => s
  | f :: fs, s => execSeq fs (f s).1

/-- Every work function in the list, run in order, returns a nil error. -/
def seqOk : List ErrFunc → DrifterState → Prop
  | [], _ => True
  | f :: fs, s => (f s).2 = none ∧ seqOk fs (f s).1

/-- A work function that records a marker action and succeeds. -/
def noteFunc (dir : String) : ErrFunc :=
  fun s => (logAct s (.terraformInit dir), none)

/-- A work function that fails with a fixed error. -/
def failFunc (e : String) : ErrFunc :=
  fun s => (s, some e)

/-- Scenario: a state holding one aged drift-cache record (timestamp 0). -/
def staleRecordState : DrifterState where
  driftCache := [(("infra/db", "prod"), ⟨0, "", false⟩)]
  workspacesCache := []
  driftedWorkspaceCount := 0
  trace := []

/-- Scenario: the plan backend reports only temporary errors. -/
def tempErrCollab : Collaborators :=
  { twoDirCollab with planSummary := fun _ _ => .temporary "backend busy" }

/-- Environment whose plan queries fail temporarily. -/
def tempErrEnv : Env :=
  { twoDirEnv with collab := tempErrCollab }

/-- Scenario: every plan result is locked and has changes. -/
def lockedCollab : Collaborators :=
  { twoDirCollab with planSummary := fun _ _ => .ok ⟨true, true, "locked changes"⟩ }

/-- Environment whose plan results are locked with changes. -/
def lockedEnv : Env :=
  { twoDirEnv with collab := lockedCollab }

/-- Scenario: the drift-notification sink always fails. -/
def notifyFailCollab : Collaborators :=
  { twoDirCollab with notifyPlanDrift := fun _ _ _ => some "chat down" }

/-- Environment whose drift-notification sink fails. -/
def notifyFailEnv : Env :=
  { twoDirEnv with collab := notifyFailCollab }

/-- Scenario: the extra-workspace sink always fails. -/
def extraFailCollab : Collaborators :=
  { twoDirCollab with notifyExtraWorkspaceInRemote := fun _ _ => some "chat down" }

/-- Environment whose extra-workspace sink fails. -/
def extraFailEnv : Env :=
  { twoDirEnv with collab := extraFailCollab }

/-- Scenario: the summary sink always fails. -/
def failingSummaryCollab : Collaborators :=
  { twoDirCollab with notifyWorkspaceDriftSummary := fun _ => some "summary sink down" }

/-- Environment whose summary sink fails. -/
def failingSummaryEnv : Env :=
  { twoDirEnv with collab := failingSummaryCollab }

/-- Scenario: terraform init always fails. -/
def initFailCollab : Collaborators :=
  { twoDirCollab with terraformInit := fun _ => some "init exploded" }

/-- Environment whose terraform init fails. -/
def initFailEnv : Env :=
  { twoDirEnv with collab := initFailCollab }

/-- Scenario: the remote backend lists workspaces a, b, c and default. -/
def extraScenCollab : Collaborators :=
  { twoDirCollab with listWorkspaces := fun _ => .ok ["a", "b", "c", "default"] }

/-- Environment for the reconciliation example of spec section 8. -/
def extraScenEnv : Env :=
  { twoDirEnv with collab := extraScenCollab }

/-- One directory declaring workspaces a and b. -/
def extraScenWorkItems : DirectoriesWithWorkspaces :=
  [("dir1", ["a", "b"])]

theorem find?_delete_drift_none (c : List ((String × String) × DriftCheckValue))
    (dir w : String) :
    (deleteDriftCheckResultOp c dir w).find? (fun p => p.1.1 == dir && p.1.2 == w) = none := by
  apply List.find?_eq_none.mpr
  intro x hx
  have hmem := List.mem_filter.mp hx
  intro hpx
  rw [hpx] at hmem
  simp at hmem

theorem getDriftCheckResult_delete (c : List ((String × String) × DriftCheckValue))
    (dir w : String) :
    getDriftCheckResult (deleteDriftCheckResultOp c dir w) dir w = none := by
  unfold getDriftCheckResult
  rw [find?_delete_drift_none]

theorem getDriftCheckResult_store (c : List ((String × String) × DriftCheckValue))
    (dir w : String) (v : DriftCheckValue) :
    getDriftCheckResult (storeDriftCheckResultOp c dir w v) dir w = some v := by
  simp [getDriftCheckResult, storeDriftCheckResultOp, List.find?]

theorem find?_delete_ws_none (c : List (String × WorkspacesCheckedValue)) (dir : String) :
    (deleteRemoteWorkspacesOp c dir).find? (fun p => p.1 == dir) = none := by
  apply List.find?_eq_none.mpr
  intro x hx
  have hmem := List.mem_filter.mp hx
  intro hpx
  rw [hpx] at hmem
  simp at hmem

theorem getRemoteWorkspaces_delete (c : List (String × WorkspacesCheckedValue))
    (dir : String) :
    getRemoteWorkspaces (deleteRemoteWorkspacesOp c dir) dir = none := by
  unfold getRemoteWorkspaces
  rw [find?_delete_ws_none]

theorem planDriftStep_temporary (env : Env) (dir w : String) (s : DrifterState) (m : String)
    (h : env.collab.planSummary dir w = .temporary m) :
    planDriftStep env dir w s = (logAct s (.planSummaryQuery dir w), none) := by
  simp [planDriftStep, h]

theorem planDriftStep_failure (env : Env) (dir w : String) (s : DrifterState) (m : String)
    (h : env.collab.planSummary dir w = .failure m) :
    planDriftStep env dir w s =
      (logAct s (.planSummaryQuery dir w),
       some ("failed to get plan summary for (" ++ dir ++ "#" ++ w ++ "): " ++ m)) := by
  simp [planDriftStep, h, logAct]

theorem planDriftStep_ok_locked (env : Env) (dir w : String) (s : DrifterState)
    (pr : PlanResult) (h : env.collab.planSummary dir w = .ok pr)
    (hl : pr.isLocked = true) :
    planDriftStep env dir w s =
      ({ s with
          driftCache := storeDriftCheckResultOp s.driftCache dir w
            ⟨env.now, "", pr.hasChanges⟩,
          trace := s.trace ++ [.planSummaryQuery dir w,
            .storeDriftCheckResult dir w ⟨env.now, "", pr.hasChanges⟩] }, none) := by
  simp [planDriftStep, h, hl, logAct]

theorem planDriftStep_ok_clean (env : Env) (dir w : String) (s : DrifterState)
    (pr : PlanResult) (h : env.collab.planSummary dir w = .ok pr)
    (hl : pr.isLocked = false) (hc : pr.hasChanges = false) :
    planDriftStep env dir w s =
      ({ s with
          driftCache := storeDriftCheckResultOp s.driftCache dir w ⟨env.now, "", false⟩,
          trace := s.trace ++ [.planSummaryQuery dir w,
            .storeDriftCheckResult dir w ⟨env.now, "", false⟩] }, none) := by
  simp [planDriftStep, h, hl, hc, logAct]

theorem planDriftStep_drifted (env : Env) (dir w : String) (s : DrifterState)
    (pr : PlanResult) (h : env.collab.planSummary dir w = .ok pr)
    (hl : pr.isLocked = false) (hc : pr.hasChanges = true) :
    planDriftStep env dir w s =
      ({ s with
          driftCache := storeDriftCheckResultOp s.driftCache dir w ⟨env.now, "", true⟩,
          driftedWorkspaceCount := s.driftedWorkspaceCount + 1,
          trace := s.trace ++ [.planSummaryQuery dir w,
            .storeDriftCheckResult dir w ⟨env.now, "", true⟩,
            .addDriftedWorkspaceCount,
            .planDrift dir w pr.planResultSummary] },
       match env.collab.notifyPlanDrift dir w pr.planResultSummary with
       | some e => some ("failed to notify of plan drift in " ++ dir ++ ": " ++ e)
       | none => none) := by
  cases hn : env.collab.notifyPlanDrift dir w pr.planResultSummary <;>
    simp [planDriftStep, h, hl, hc, hn, logAct]

theorem checkWorkspace_missing (env : Env) (dir w : String) (s : DrifterState)
    (h : getDriftCheckResult s.driftCache dir w = none) :
    checkWorkspace env dir w s = planDriftStep env dir w s := by
  simp [checkWorkspace, h]

theorem checkWorkspace_fresh (env : Env) (dir w : String) (s : DrifterState)
    (v : DriftCheckValue) (h : getDriftCheckResult s.driftCache dir w = some v)
    (hf : env.now - v.when < env.cacheValidDuration) :
    checkWorkspace env dir w s = (s, none) := by
  simp [checkWorkspace, h, hf]

theorem checkWorkspace_stale (env : Env) (dir w : String) (s : DrifterState)
    (v : DriftCheckValue) (h : getDriftCheckResult s.driftCache dir w = some v)
    (hs : ¬ (env.now - v.when < env.cacheValidDuration)) :
    checkWorkspace env dir w s =
      planDriftStep env dir w
        { s with driftCache := deleteDriftCheckResultOp s.driftCache dir w,
                 trace := s.trace ++ [.deleteDriftCheckResult dir w] } := by
  simp [checkWorkspace, h, hs]

/-- Claim C3: for a checked (directory, workspace) pair with an existing
cache record, the record skips the check iff its age is strictly below the
TTL (the state is returned untouched, so no plan query happens); when the
age is at least the TTL, the record is deleted before the plan query runs
(the delete precedes the query in the trace) and the plan-query
collaborator is invoked exactly once for the pair (one `planSummaryQuery`
action in the appended trace segment, none in its tail). -/
theorem drift_cache_skip_iff_fresh_else_evict_query_once (env : Env) (dir w : String)
    (s : DrifterState) (v : DriftCheckValue)
    (h : getDriftCheckResult s.driftCache dir w = some v) :
    (env.now - v.when < env.cacheValidDuration → checkWorkspace env dir w s = (s, none)) ∧
    (env.cacheValidDuration ≤ env.now - v.when →
      ∃ rest, (checkWorkspace env dir w s).1.trace
          = s.trace ++ [.deleteDriftCheckResult dir w, .planSummaryQuery dir w] ++ rest ∧
        rest.countP (isPlanQueryFor dir w) = 0) := by
  constructor
  · intro hf
    exact checkWorkspace_fresh env dir w s v h hf
  · intro hs
    rw [checkWorkspace_stale env dir w s v h (not_lt.mpr hs)]
    cases hps : env.collab.planSummary dir w with
    | temporary m =>
      rw [planDriftStep_temporary _ _ _ _ _ hps]
      exact ⟨[], by simp [logAct]⟩
    | failure m =>
      rw [planDriftStep_failure _ _ _ _ _ hps]
      exact ⟨[], by simp [logAct]⟩
    | ok pr =>
      cases hl : pr.isLocked with
      | true =>
        rw [planDriftStep_ok_locked _ _ _ _ _ hps hl]
        exact ⟨[.storeDriftCheckResult dir w ⟨env.now, "", pr.hasChanges⟩],
          by simp [List.countP_cons, isPlanQueryFor]⟩
      | false =>
        cases hc : pr.hasChanges with
        | false =>
          rw [planDriftStep_ok_clean _ _ _ _ _ hps hl hc]
          exact ⟨[.storeDriftCheckResult dir w ⟨env.now, "", false⟩],
            by simp [List.countP_cons, isPlanQueryFor]⟩
        | true =>
          rw [planDriftStep_drifted _ _ _ _ _ hps hl hc]
          exact ⟨[.storeDriftCheckResult dir w ⟨env.now, "", true⟩,
                  .addDriftedWorkspaceCount, .planDrift dir w pr.planResultSummary],
            by simp [List.countP_cons, isPlanQueryFor, isPlanDriftNotify]⟩

/-- Claim C4: a plan query failing with a collaborator-flagged temporary
error leaves the loop iteration with a nil error (so the workspace loop
proceeds to the remaining workspaces, and the enclosing work function does
not abort the run), leaves the Drift Counter unchanged, stores no cache
record for the pair, and emits no drift notification. -/
theorem temporary_error_local_to_workspace (env : Env) (dir w : String)
    (rest : List String) (s : DrifterState) (m : String)
    (hm : missOrStale env dir w s)
    (ht : env.collab.planSummary dir w = .temporary m) :
    (checkWorkspace env dir w s).2 = none ∧
    checkWorkspaces env dir (w :: rest) s
      = checkWorkspaces env dir rest (checkWorkspace env dir w s).1 ∧
    (checkWorkspace env dir w s).1.driftedWorkspaceCount = s.driftedWorkspaceCount ∧
    getDriftCheckResult (checkWorkspace env dir w s).1.driftCache dir w = none ∧
    (checkWorkspace env dir w s).1.trace.countP (isStoreFor dir w)
      = s.trace.countP (isStoreFor dir w) ∧
    (checkWorkspace env dir w s).1.trace.countP isPlanDriftNotify
      = s.trace.countP isPlanDriftNotify := by
  rcases hm with hmiss | ⟨v, hv, hstale⟩
  · have hcw : checkWorkspace env dir w s = (logAct s (.planSummaryQuery dir w), none) := by
      rw [checkWorkspace_missing env dir w s hmiss, planDriftStep_temporary _ _ _ _ _ ht]
    refine ⟨by simp [hcw], by simp [checkWorkspaces, hcw], by simp [hcw, logAct],
      by simpa [hcw, logAct, getDriftCheckResult] using hmiss,
      by simp [hcw, logAct, List.countP_cons, isStoreFor],
      by simp [hcw, logAct, List.countP_cons, isPlanDriftNotify]⟩
  · have hcw : checkWorkspace env dir w s
        = (logAct { s with driftCache := deleteDriftCheckResultOp s.driftCache dir w,
                           trace := s.trace ++ [.deleteDriftCheckResult dir w] }
            (.planSummaryQuery dir w), none) := by
      rw [checkWorkspace_stale env dir w s v hv (not_lt.mpr hstale),
        planDriftStep_temporary _ _ _ _ _ ht]
    refine ⟨by simp [hcw], by simp [checkWorkspaces, hcw],
      by simp [hcw, logAct],
      by simp [hcw, logAct, getDriftCheckResult_delete],
      by simp [hcw, logAct, List.countP_cons, List.countP_append, isStoreFor],
      by simp [hcw, logAct, List.countP_cons, List.countP_append, isPlanDriftNotify]⟩

/-- Claim C5: a plan result that is both locked and has changes stores a
fresh cache record with `drift = true` (the store happens even though the
lock check then skips the pair), emits no drift notification, and leaves
the Drift Counter unchanged; the loop iteration ends with a nil error. -/
theorem locked_changed_stores_record_without_notification (env : Env) (dir w : String)
    (s : DrifterState) (pr : PlanResult)
    (hm : missOrStale env dir w s)
    (hps : env.collab.planSummary dir w = .ok pr)
    (hc : pr.hasChanges = true) (hl : pr.isLocked = true) :
    (checkWorkspace env dir w s).2 = none ∧
    getDriftCheckResult (checkWorkspace env dir w s).1.driftCache dir w
      = some ⟨env.now, "", true⟩ ∧
    (checkWorkspace env dir w s).1.trace.countP (isStoreFor dir w)
      = s.trace.countP (isStoreFor dir w) + 1 ∧
    (checkWorkspace env dir w s).1.driftedWorkspaceCount = s.driftedWorkspaceCount ∧
    (checkWorkspace env dir w s).1.trace.countP isPlanDriftNotify
      = s.trace.countP isPlanDriftNotify := by
  rcases hm with hmiss | ⟨v, hv, hstale⟩
  · have hcw := checkWorkspace_missing env dir w s hmiss
    rw [planDriftStep_ok_locked _ _ _ _ _ hps hl, hc] at hcw
    refine ⟨by simp [hcw], by simp [hcw, getDriftCheckResult_store],
      by simp [hcw, List.countP_cons, List.countP_append, isStoreFor],
      by simp [hcw],
      by simp [hcw, List.countP_cons, List.countP_append, isPlanDriftNotify]⟩
  · have hcw := checkWorkspace_stale env dir w s v hv (not_lt.mpr hstale)
    rw [planDriftStep_ok_locked _ _ _ _ _ hps hl, hc] at hcw
    refine ⟨by simp [hcw], by simp [hcw, getDriftCheckResult_store],
      by simp [hcw, List.countP_cons, List.countP_append, isStoreFor],
      by simp [hcw],
      by simp [hcw, List.countP_cons, List.countP_append, isPlanDriftNotify]⟩

/-- Claim C10: for a pair found drifted (changes, not locked), the Drift
Counter is incremented before the drift notification is attempted: even
when the sink fails and the iteration returns the wrapped error, the
final state retains the increment, and in the trace the counter increment
precedes the sink invocation. -/
theorem counter_incremented_before_drift_notification (env : Env) (dir w : String)
    (s : DrifterState) (pr : PlanResult) (e : String)
    (hm : missOrStale env dir w s)
    (hps : env.collab.planSummary dir w = .ok pr)
    (hc : pr.hasChanges = true) (hl : pr.isLocked = false)
    (hn : env.collab.notifyPlanDrift dir w pr.planResultSummary = some e) :
    (checkWorkspace env dir w s).2
      = some ("failed to notify of plan drift in " ++ dir ++ ": " ++ e) ∧
    (checkWorkspace env dir w s).1.driftedWorkspaceCount = s.driftedWorkspaceCount + 1 ∧
    ∃ pre, (checkWorkspace env dir w s).1.trace
        = s.trace ++ pre ++ [Action.addDriftedWorkspaceCount,
                             Action.planDrift dir w pr.planResultSummary] := by
  rcases hm with hmiss | ⟨v, hv, hstale⟩
  · have hcw := checkWorkspace_missing env dir w s hmiss
    rw [planDriftStep_drifted _ _ _ _ _ hps hl hc, hn] at hcw
    refine ⟨by simp [hcw], by simp [hcw],
      ⟨[.planSummaryQuery dir w, .storeDriftCheckResult dir w ⟨env.now, "", true⟩],
        by simp [hcw]⟩⟩
  · have hcw := checkWorkspace_stale env dir w s v hv (not_lt.mpr hstale)
    rw [planDriftStep_drifted _ _ _ _ _ hps hl hc, hn] at hcw
    refine ⟨by simp [hcw], by simp [hcw],
      ⟨[.deleteDriftCheckResult dir w, .planSummaryQuery dir w,
        .storeDriftCheckResult dir w ⟨env.now, "", true⟩],
        by simp [hcw]⟩⟩

theorem notifyExtraLoop_all_ok (env : Env) (dir : String) (expected : List String)
    (remote : List String) (s : DrifterState)
    (h : ∀ w, env.collab.notifyExtraWorkspaceInRemote dir w = none) :
    notifyExtraLoop env dir expected remote s
      = ({ s with trace := (s.trace
            ++ (remote.filter (fun w => !(contains expected w))).map
                (fun w => Action.extraWorkspaceInRemote dir w)) }, none) := by
  induction remote generalizing s with
  | nil => simp [notifyExtraLoop]
  | cons w rest ih =>
    by_cases hc : contains expected w
    · simp [notifyExtraLoop, hc, ih s]
    · simp [notifyExtraLoop, hc, h w, logAct, ih, List.append_assoc]

theorem notifyExtraLoop_wsCache_invariant (env : Env) (dir : String)
    (expected remote : List String) :
    ∀ s : DrifterState,
      (notifyExtraLoop env dir expected remote s).1.workspacesCache = s.workspacesCache ∧
      (notifyExtraLoop env dir expected remote s).1.trace.countP (isWsStoreFor dir)
        = s.trace.countP (isWsStoreFor dir) := by
  induction remote with
  | nil => intro s; simp [notifyExtraLoop]
  | cons w rest ih =>
    intro s
    by_cases hc : contains expected w
    · simpa [notifyExtraLoop, hc] using ih s
    · cases hn : env.collab.notifyExtraWorkspaceInRemote dir w with
      | some e =>
        simp [notifyExtraLoop, hc, hn, logAct, List.countP_append, List.countP_cons,
          isWsStoreFor]
      | none =>
        have hrec := ih (logAct s (.extraWorkspaceInRemote dir w))
        simp only [notifyExtraLoop, hc, hn, if_neg, Bool.false_eq_true, if_false] at hrec ⊢
        refine ⟨hrec.1, ?_⟩
        rw [hrec.2]
        simp [logAct, List.countP_append, List.countP_cons, isWsStoreFor]

theorem extraDirBody_error_no_store (env : Env) (ws : DirectoriesWithWorkspaces)
    (dir : String) (s s' : DrifterState) (e : String)
    (h : extraDirBody env ws dir s = (s', some e)) :
    s'.workspacesCache = s.workspacesCache ∧
    s'.trace.countP (isWsStoreFor dir) = s.trace.countP (isWsStoreFor dir) := by
  unfold extraDirBody at h
  cases hinit : env.collab.terraformInit dir with
  | some e1 =>
    simp only [hinit] at h
    obtain ⟨hs, -⟩ := Prod.mk.injEq .. ▸ h
    subst hs
    simp [logAct, List.countP_append, List.countP_cons, isWsStoreFor]
  | none =>
    simp only [hinit] at h
    cases hlist : env.collab.listWorkspaces dir with
    | error e2 =>
      simp only [hlist] at h
      obtain ⟨hs, -⟩ := Prod.mk.injEq .. ▸ h
      subst hs
      simp [logAct, List.countP_append, List.countP_cons, isWsStoreFor]
    | ok remote =>
      simp only [hlist] at h
      cases hloop : notifyExtraLoop env dir (wsLookup ws dir ++ ["default"]) remote
          (logAct (logAct s (.terraformInit dir)) (.listWorkspaces dir)) with
      | mk s3 r =>
        cases r with
        | some e3 =>
          simp only [hloop] at h
          obtain ⟨hs, -⟩ := Prod.mk.injEq .. ▸ h
          subst hs
          have hinv := notifyExtraLoop_wsCache_invariant env dir
            (wsLookup ws dir ++ ["default"]) remote
            (logAct (logAct s (.terraformInit dir)) (.listWorkspaces dir))
          rw [hloop] at hinv
          constructor
          · rw [hinv.1]; simp [logAct]
          · rw [hinv.2]; simp [logAct, List.countP_append, List.countP_cons, isWsStoreFor]
        | none =>
          simp only [hloop] at h
          exact absurd h (by simp)

/-- Claim C9: when a directory's reconciliation work function fails (from
terraform init, the remote listing, or an extra-workspace notification —
the only error sources it has), no workspace-listing cache record is
stored for the directory: the number of store actions for it is unchanged
and the reconciliation cache holds no record for it afterwards. -/
theorem reconciliation_store_only_after_success (env : Env)
    (ws : DirectoriesWithWorkspaces) (dir : String) (s s' : DrifterState) (e : String)
    (h : extraDirFunc env ws dir s = (s', some e)) :
    s'.trace.countP (isWsStoreFor dir) = s.trace.countP (isWsStoreFor dir) ∧
    getRemoteWorkspaces s'.workspacesCache dir = none := by
  unfold extraDirFunc at h
  by_cases hskip : shouldSkipDirectory env.directoryAllowlist dir
  · rw [if_pos hskip] at h
    exact absurd h (by simp)
  · rw [if_neg hskip] at h
    cases hget : getRemoteWorkspaces s.workspacesCache dir with
    | none =>
      simp only [hget] at h
      have hb := extraDirBody_error_no_store env ws dir s s' e h
      exact ⟨hb.2, by rw [hb.1]; exact hget⟩
    | some v =>
      simp only [hget] at h
      by_cases hf : env.now - v.when < env.cacheValidDuration
      · rw [if_pos hf] at h
        exact absurd h (by simp)
      · rw [if_neg hf] at h
        have hb := extraDirBody_error_no_store env ws dir _ s' e h
        constructor
        · rw [hb.2]
          simp [List.countP_append, List.countP_cons, isWsStoreFor]
        · rw [hb.1]
          exact getRemoteWorkspaces_delete _ _

/-- Claim C6: a directory processed by the reconciler (not filtered, no
cached record, init and listing succeed, sink deliveries succeed) emits
exactly one extra-workspace notification per remote workspace that is
neither declared nor "default", in the order the listing returned them,
and then stores the listing; with declared workspaces a, b and remote
workspaces a, b, c, default this is exactly one notification, for c. -/
theorem reconciler_notifies_each_unexpected_remote (env : Env)
    (ws : DirectoriesWithWorkspaces) (dir : String) (s : DrifterState)
    (remote : List String)
    (h0 : shouldSkipDirectory env.directoryAllowlist dir = false)
    (h1 : getRemoteWorkspaces s.workspacesCache dir = none)
    (h2 : env.collab.terraformInit dir = none)
    (h3 : env.collab.listWorkspaces dir = .ok remote)
    (h4 : ∀ w, env.collab.notifyExtraWorkspaceInRemote dir w = none) :
    extraDirFunc env ws dir s
      = ({ s with
            workspacesCache := storeRemoteWorkspacesOp s.workspacesCache dir
              ⟨remote, env.now⟩,
            trace := (s.trace ++ [Action.terraformInit dir, Action.listWorkspaces dir]
              ++ (remote.filter
                    (fun w => !(contains (wsLookup ws dir ++ ["default"]) w))).map
                  (fun w => Action.extraWorkspaceInRemote dir w)
              ++ [Action.storeRemoteWorkspaces dir ⟨remote, env.now⟩]) }, none) := by
  unfold extraDirFunc
  rw [if_neg (by simp [h0])]
  simp only [h1]
  unfold extraDirBody
  simp only [h2, h3]
  rw [notifyExtraLoop_all_ok _ _ _ _ _ h4]
  simp [logAct, List.append_assoc]

theorem drainAndExecute_cons_error (r : ErrFunc) (rs : List ErrFunc) (s : DrifterState)
    (e : String) (h : (r s).2 = some e) :
    drainAndExecute (r :: rs) s = ((r s).1, some e) := by
  cases hrs : r s with
  | mk s1 res =>
    have hres : res = some e := by rw [← h, hrs]
    subst hres
    simp [drainAndExecute, hrs]

theorem drainAndExecute_cons_ok (r : ErrFunc) (rs : List ErrFunc) (s : DrifterState)
    (h : (r s).2 = none) :
    drainAndExecute (r :: rs) s = drainAndExecute rs (r s).1 := by
  cases hrs : r s with
  | mk s1 res =>
    have hres : res = none := by rw [← h, hrs]
    subst hres
    simp [drainAndExecute, hrs]

/-- Claim C7: with the configured concurrency at most 1 the scheduler runs
the work functions strictly in list order: if a prefix succeeds and the
next function fails, the returned pair is exactly the sequential state and
error at that function — independent of everything after it, which
therefore never runs — and if every function succeeds the scheduler
returns the sequential final state with a nil error. -/
theorem scheduler_sequential_stops_at_first_error :
    (∀ (pre post : List ErrFunc) (f : ErrFunc) (s : DrifterState) (e : String),
      seqOk pre s → (f (execSeq pre s)).2 = some e →
      drainAndExecute (pre ++ f :: post) s = ((f (execSeq pre s)).1, some e)) ∧
    (∀ (fs : List ErrFunc) (s : DrifterState), seqOk fs s →
      drainAndExecute fs s = (execSeq fs s, none)) := by
  constructor
  · intro pre
    induction pre with
    | nil =>
      intro post f s e _ hf
      simp only [execSeq] at hf ⊢
      rw [List.nil_append]
      exact drainAndExecute_cons_error f post s e hf
    | cons g pre ih =>
      intro post f s e hok hf
      obtain ⟨hg, hrest⟩ := hok
      simp only [execSeq] at hf ⊢
      rw [List.cons_append, drainAndExecute_cons_ok g _ s hg]
      exact ih post f (g s).1 e hrest hf
  · intro fs
    induction fs with
    | nil =>
      intro s _
      simp [drainAndExecute, execSeq]
    | cons f fs ih =>
      intro s hok
      obtain ⟨hf, hrest⟩ := hok
      rw [drainAndExecute_cons_ok f fs s hf]
      simp only [execSeq]
      exact ih (f s).1 hrest

/-- Witness for claim C7: a succeeding function, then a failing one, then
one more; the scheduler returns the failure reached after the first
function, untouched by the third. -/
theorem scheduler_sequential_witness :
    (seqOk [noteFunc "a"] initialState ∧
      (failFunc "boom" (execSeq [noteFunc "a"] initialState)).2 = some "boom") ∧
    drainAndExecute ([noteFunc "a"] ++ failFunc "boom" :: [noteFunc "z"]) initialState
      = ((failFunc "boom" (execSeq [noteFunc "a"] initialState)).1, some "boom") :=
  ⟨⟨⟨rfl, trivial⟩, rfl⟩,
    scheduler_sequential_stops_at_first_error.1 [noteFunc "a"] [noteFunc "z"]
      (failFunc "boom") initialState "boom" ⟨rfl, trivial⟩ rfl⟩

/-- Claim C2 (amended): a non-nil error from the PlanDrift sink or from
the ExtraWorkspaceInRemote sink is returned, wrapped, by the enclosing
loop iteration — so the directory's work function and, by the scheduler's
first-error behaviour, the run abort with it — while the end-of-run
summary sink's error is discarded at its call site: whenever both passes
succeed, the run returns nil regardless of the summary sink's result. -/
theorem fatal_vs_ignored_sink_failures :
    (∀ (env : Env) (dir w : String) (s : DrifterState) (pr : PlanResult) (e : String),
      missOrStale env dir w s →
      env.collab.planSummary dir w = .ok pr →
      pr.isLocked = false → pr.hasChanges = true →
      env.collab.notifyPlanDrift dir w pr.planResultSummary = some e →
      (checkWorkspace env dir w s).2
        = some ("failed to notify of plan drift in " ++ dir ++ ": " ++ e)) ∧
    (∀ (env : Env) (dir : String) (expected : List String) (w : String)
        (rest : List String) (s : DrifterState) (e : String),
      contains expected w = false →
      env.collab.notifyExtraWorkspaceInRemote dir w = some e →
      (notifyExtraLoop env dir expected (w :: rest) s).2
        = some ("failed to notify of extra workspace " ++ w ++ " in " ++ dir ++ ": " ++ e)) ∧
    (∀ (env : Env) (ws : DirectoriesWithWorkspaces) (s s1 s2 : DrifterState) (e : String),
      FindDriftedWorkspaces env ws s = (s1, none) →
      FindExtraWorkspaces env ws s1 = (s2, none) →
      env.collab.notifyWorkspaceDriftSummary s2.driftedWorkspaceCount = some e →
      (Drift env ws s).2 = none) := by
  refine ⟨?_, ?_, ?_⟩
  · intro env dir w s pr e hm hps hl hc hn
    rcases hm with hmiss | ⟨v, hv, hstale⟩
    · have hcw := checkWorkspace_missing env dir w s hmiss
      rw [planDriftStep_drifted _ _ _ _ _ hps hl hc, hn] at hcw
      simp [hcw]
    · have hcw := checkWorkspace_stale env dir w s v hv (not_lt.mpr hstale)
      rw [planDriftStep_drifted _ _ _ _ _ hps hl hc, hn] at hcw
      simp [hcw]
  · intro env dir expected w rest s e hc hn
    simp [notifyExtraLoop, hc, hn]
  · intro env ws s s1 s2 e h1 h2 _
    simp [Drift, h1, h2]

/-- Counterexample for claim C2 as stated: in the two-directory run with a
failing summary sink, the sink is invoked (the summary action is in the
trace) and returns a non-nil error for the value passed to it, yet the
run's terminal error is nil — the summary delivery failure is silently
ignored. -/
theorem summary_sink_failure_silently_ignored :
    failingSummaryCollab.notifyWorkspaceDriftSummary 1 = some "summary sink down" ∧
    (Drift failingSummaryEnv twoDirWorkItems initialState).1.trace.filter isSummaryAction
      = [Action.workspaceDriftSummary 1] ∧
    (Drift failingSummaryEnv twoDirWorkItems initialState).2 = none := by
  decide

/-- Witness for claim C2 (amended): the three behaviours at concrete
inputs — a failing drift notification aborts the workspace check, a
failing extra-workspace notification aborts the reconciliation loop, and
a failing summary sink leaves the run's result nil. -/
theorem fatal_vs_ignored_sink_failures_witness :
    ((checkWorkspace notifyFailEnv "infra/db" "prod" initialState).2
        = some ("failed to notify of plan drift in " ++ "infra/db" ++ ": " ++ "chat down")) ∧
    ((notifyExtraLoop extraFailEnv "dir1" ["a", "b", "default"] ("c" :: []) initialState).2
        = some ("failed to notify of extra workspace " ++ "c" ++ " in " ++ "dir1"
            ++ ": " ++ "chat down")) ∧
    ((Drift failingSummaryEnv twoDirWorkItems initialState).2 = none) :=
  ⟨fatal_vs_ignored_sink_failures.1 notifyFailEnv "infra/db" "prod" initialState
      ⟨true, false, "1 to change"⟩ "chat down" (Or.inl (by decide)) (by decide) rfl rfl rfl,
    fatal_vs_ignored_sink_failures.2.1 extraFailEnv "dir1" ["a", "b", "default"] "c" []
      initialState "chat down" (by decide) rfl,
    fatal_vs_ignored_sink_failures.2.2 failingSummaryEnv twoDirWorkItems initialState
      (FindDriftedWorkspaces failingSummaryEnv twoDirWorkItems initialState).1
      (FindExtraWorkspaces failingSummaryEnv twoDirWorkItems
        (FindDriftedWorkspaces failingSummaryEnv twoDirWorkItems initialState).1).1
      "summary sink down" (by decide) (by decide) (by decide)⟩

/-- Claim C1 (code bug): the two-directory run of spec section 8 completes
without a fatal error and invokes the summary sink exactly once, but the
invocation carries a single value — the drifted-workspace count 1 — not
the three values (1, 1, 2): the call site at line 89 passes only
`d.DriftedWorkspaceCount` (and discards the sink's error), although the
`Notification` interface declares drifted, undrifted and total counts. -/
theorem run_emits_one_single_argument_summary :
    (Drift twoDirEnv twoDirWorkItems initialState).2 = none ∧
    (Drift twoDirEnv twoDirWorkItems initialState).1.trace.filter isSummaryAction
      = [Action.workspaceDriftSummary 1] ∧
    (Drift twoDirEnv twoDirWorkItems initialState).1.driftedWorkspaceCount = 1 := by
  decide

/-- Witness for claim C3: a record aged 1000 against a TTL of 600 is
stale, so it is evicted ahead of exactly one plan query. -/
theorem drift_cache_skip_iff_fresh_witness :
    getDriftCheckResult staleRecordState.driftCache "infra/db" "prod"
      = some ⟨0, "", false⟩ ∧
    twoDirEnv.cacheValidDuration ≤ twoDirEnv.now - (⟨0, "", false⟩ : DriftCheckValue).when ∧
    (∃ rest, (checkWorkspace twoDirEnv "infra/db" "prod" staleRecordState).1.trace
        = staleRecordState.trace ++ [.deleteDriftCheckResult "infra/db" "prod",
            .planSummaryQuery "infra/db" "prod"] ++ rest ∧
      rest.countP (isPlanQueryFor "infra/db" "prod") = 0) :=
  ⟨by decide, by decide,
    (drift_cache_skip_iff_fresh_else_evict_query_once twoDirEnv "infra/db" "prod"
      staleRecordState ⟨0, "", false⟩ (by decide)).2 (by decide)⟩

/-- Witness for claim C4: a temporary plan-query error on the only
workspace of a directory leaves counter, cache and notifications
untouched and the loop moves on. -/
theorem temporary_error_local_witness :
    tempErrEnv.collab.planSummary "infra/db" "prod" = .temporary "backend busy" ∧
    ((checkWorkspace tempErrEnv "infra/db" "prod" initialState).2 = none ∧
     checkWorkspaces tempErrEnv "infra/db" ("prod" :: []) initialState
       = checkWorkspaces tempErrEnv "infra/db" []
           (checkWorkspace tempErrEnv "infra/db" "prod" initialState).1 ∧
     (checkWorkspace tempErrEnv "infra/db" "prod" initialState).1.driftedWorkspaceCount
       = initialState.driftedWorkspaceCount ∧
     getDriftCheckResult
        (checkWorkspace tempErrEnv "infra/db" "prod" initialState).1.driftCache
        "infra/db" "prod" = none ∧
     (checkWorkspace tempErrEnv "infra/db" "prod" initialState).1.trace.countP
        (isStoreFor "infra/db" "prod")
       = initialState.trace.countP (isStoreFor "infra/db" "prod") ∧
     (checkWorkspace tempErrEnv "infra/db" "prod" initialState).1.trace.countP
        isPlanDriftNotify
       = initialState.trace.countP isPlanDriftNotify) :=
  ⟨by decide,
    temporary_error_local_to_workspace tempErrEnv "infra/db" "prod" [] initialState
      "backend busy" (Or.inl rfl) (by decide)⟩

/-- Witness for claim C5: a locked plan result with changes stores a
drifted record yet neither counts nor notifies. -/
theorem locked_changed_witness :
    lockedEnv.collab.planSummary "infra/db" "prod" = .ok ⟨true, true, "locked changes"⟩ ∧
    ((checkWorkspace lockedEnv "infra/db" "prod" initialState).2 = none ∧
     getDriftCheckResult
        (checkWorkspace lockedEnv "infra/db" "prod" initialState).1.driftCache
        "infra/db" "prod" = some ⟨lockedEnv.now, "", true⟩ ∧
     (checkWorkspace lockedEnv "infra/db" "prod" initialState).1.trace.countP
        (isStoreFor "infra/db" "prod")
       = initialState.trace.countP (isStoreFor "infra/db" "prod") + 1 ∧
     (checkWorkspace lockedEnv "infra/db" "prod" initialState).1.driftedWorkspaceCount
       = initialState.driftedWorkspaceCount ∧
     (checkWorkspace lockedEnv "infra/db" "prod" initialState).1.trace.countP
        isPlanDriftNotify
       = initialState.trace.countP isPlanDriftNotify) :=
  ⟨by decide,
    locked_changed_stores_record_without_notification lockedEnv "infra/db" "prod"
      initialState ⟨true, true, "locked changes"⟩ (Or.inl rfl) (by decide) rfl rfl⟩

/-- Witness for claim C6: declared workspaces a, b; remote workspaces a,
b, c, default; the offending-workspace filter yields exactly c, and the
work function emits the corresponding single notification before the
store. -/
theorem reconciler_notifies_witness :
    (["a", "b", "c", "default"].filter
        (fun w => !(contains (wsLookup extraScenWorkItems "dir1" ++ ["default"]) w)))
      = ["c"] ∧
    (∀ w, extraScenEnv.collab.notifyExtraWorkspaceInRemote "dir1" w = none) ∧
    extraDirFunc extraScenEnv extraScenWorkItems "dir1" initialState
      = ({ initialState with
            workspacesCache := storeRemoteWorkspacesOp initialState.workspacesCache "dir1"
              ⟨["a", "b", "c", "default"], extraScenEnv.now⟩,
            trace := (initialState.trace
              ++ [Action.terraformInit "dir1", Action.listWorkspaces "dir1"]
              ++ ((["a", "b", "c", "default"].filter
                    (fun w => !(contains (wsLookup extraScenWorkItems "dir1"
                        ++ ["default"]) w))).map
                  (fun w => Action.extraWorkspaceInRemote "dir1" w))
              ++ [Action.storeRemoteWorkspaces "dir1"
                    ⟨["a", "b", "c", "default"], extraScenEnv.now⟩]) }, none) :=
  ⟨by decide, fun w => rfl,
    reconciler_notifies_each_unexpected_remote extraScenEnv extraScenWorkItems "dir1"
      initialState ["a", "b", "c", "default"] rfl rfl rfl rfl (fun w => rfl)⟩

/-- Witness for claim C9: with terraform init failing, the directory's
work function errors and no reconciliation record is stored. -/
theorem reconciliation_store_witness :
    extraDirFunc initFailEnv twoDirWorkItems "infra/db" initialState
      = ((extraDirFunc initFailEnv twoDirWorkItems "infra/db" initialState).1,
         some ("failed to init workspace " ++ "infra/db" ++ ": " ++ "init exploded")) ∧
    ((extraDirFunc initFailEnv twoDirWorkItems "infra/db" initialState).1.trace.countP
        (isWsStoreFor "infra/db")
      = initialState.trace.countP (isWsStoreFor "infra/db") ∧
     getRemoteWorkspaces
        (extraDirFunc initFailEnv twoDirWorkItems "infra/db" initialState).1.workspacesCache
        "infra/db" = none) :=
  ⟨by decide,
    reconciliation_store_only_after_success initFailEnv twoDirWorkItems "infra/db"
      initialState (extraDirFunc initFailEnv twoDirWorkItems "infra/db" initialState).1
      ("failed to init workspace " ++ "infra/db" ++ ": " ++ "init exploded") (by decide)⟩

/-- Witness for claim C10: a failing drift-notification sink: the
iteration errors yet the counter keeps the increment, and the increment
action precedes the notification action. -/
theorem counter_before_notification_witness :
    notifyFailEnv.collab.notifyPlanDrift "infra/db" "prod" "1 to change"
      = some "chat down" ∧
    ((checkWorkspace notifyFailEnv "infra/db" "prod" initialState).2
        = some ("failed to notify of plan drift in " ++ "infra/db" ++ ": " ++ "chat down") ∧
     (checkWorkspace notifyFailEnv "infra/db" "prod" initialState).1.driftedWorkspaceCount
       = initialState.driftedWorkspaceCount + 1 ∧
     ∃ pre, (checkWorkspace notifyFailEnv "infra/db" "prod" initialState).1.trace
         = initialState.trace ++ pre ++ [Action.addDriftedWorkspaceCount,
             Action.planDrift "infra/db" "prod" "1 to change"]) :=
  ⟨by decide,
    counter_incremented_before_drift_notification notifyFailEnv "infra/db" "prod"
      initialState ⟨true, false, "1 to change"⟩ "chat down" (Or.inl rfl) (by decide)
      rfl rfl rfl⟩
